import Mathlib

/-
Verification of the VM Configuration Planner of colcon-acceleration
(src/colcon_krs/subverb/hypervisor.py, class HypervisorSubverb).

The shallow embedding models:
  * CLI arguments (`Args`): argparse options with action="append" are
    `Option (List _)` — `none` when the flag was never passed, which is
    falsy in Python and raises TypeError under `len`;
  * the filesystem environment (`Env`): whether sd_card.img and
    sd_card.img.old pre-exist, and which firmware artifacts are missing
    (the `exists` assertions);
  * the side effects of `HypervisorSubverb.main` as a trace of `Effect`s;
  * the module-level mutable string TEMPLATE_CONFIG, threaded explicitly
    through `main` as an input (initial global value) and an output
    (final global value).

External shell commands are modelled as always succeeding; the claims
under study only concern behaviour up to and including the effect trace.
-/

set_option maxHeartbeats 1000000
set_option maxRecDepth 100000

namespace ColconKrs

/- Kernel variants accepted by the --dom0, --domU and --dom0less choices. -/
inductive Variant
  | vanilla
  | preempt_rt
deriving DecidableEq

/- Kernel image file chosen per variant (lines 387-410, 454-482, 507-533). -/
def variantKernel : Variant → String
  | Variant.vanilla => "Image"
  | Variant.preempt_rt => "Image_PREEMPT_RT"

/- Parsed CLI arguments (add_arguments, lines 48-99).  append-actions
default to None, hence `Option (List _)`. -/
structure Args where
  debug : Bool
  dom0_arg : Option Variant
  domU_args : Option (List Variant)
  dom0less_args : Option (List Variant)
  ramdisk_args : Option (List String)
  rootfs_args : Option (List String)
deriving DecidableEq

/- Python truthiness of an argparse append attribute: None and [] are falsy. -/
def truthy {α : Type} : Option (List α) → Bool
  | none => false
  | some l => !l.isEmpty

/- Length of an append attribute when it is a list; only consulted behind
truthiness guards in the source. -/
def olen {α : Type} : Option (List α) → Nat
  | none => 0
  | some l => l.length

/- The underlying list (None behaves like the empty list for iteration,
since every `for` loop in the source is guarded by truthiness). -/
def olist {α : Type} : Option (List α) → List α
  | none => []
  | some l => l

/- Indexing `args[n]`; only consulted in-bounds in the source. -/
def getOpt (o : Option (List String)) (n : Nat) : String :=
  (olist o).getD n ""

def default_ramdisk : String := "initrd.cpio"

def default_rootfs : String := "rootfs.cpio.gz"

/- Module-level template, lines 28-36. -/
def TEMPLATE_CONFIG : String :=
  "MEMORY_START=0x0\nMEMORY_END=0x80000000\nDEVICE_TREE=system.dtb\nBOOTBIN=BOOT.BIN\nXEN=xen\nUBOOT_SOURCE=boot.source\nUBOOT_SCRIPT=boot.scr\n"

/- How a run of argument_checks terminates abnormally: sys.exit(n), or an
uncaught TypeError from len(None) (which makes the interpreter exit
with status 1). -/
inductive PyExit
  | exitCode (n : Nat)
  | typeError
deriving DecidableEq

/- Process exit status produced by each abnormal termination. -/
def exitCodeOf : PyExit → Nat
  | PyExit.exitCode n => n
  | PyExit.typeError => 1

/- len(x) where x may be None (argparse default): raises TypeError. -/
def pyLen {α : Type} : Option (List α) → Except PyExit Nat
  | none => Except.error PyExit.typeError
  | some l => Except.ok l.length

/- Condition of the first check of argument_checks (lines 197-208).
Python operator precedence: `and` binds tighter than `or`.  The `olen`
conjuncts are only reachable when the corresponding truthiness guards
hold, so no TypeError can occur here. -/
def ramdiskCheckCond (a : Args) : Bool :=
  (truthy a.ramdisk_args && truthy a.domU_args && truthy a.dom0less_args
    && decide (olen a.domU_args + olen a.dom0less_args < olen a.ramdisk_args))
  || (truthy a.ramdisk_args && truthy a.dom0less_args
    && decide (olen a.dom0less_args < olen a.ramdisk_args))

/- First check of argument_checks: "ensure ramdisks don't overrun
domUs + dom0less" (lines 195-212). -/
def ramdiskCheck (a : Args) : Except PyExit Unit :=
  if ramdiskCheckCond a then Except.error (PyExit.exitCode 1) else Except.ok ()

/- Second check: "ensure rootfs don't overrun domUs + dom0less + dom0"
(lines 214-222).  If rootfs_args is truthy but domU_args or
dom0less_args is None, len(None) raises TypeError (evaluation order:
len(domU_args) first). -/
def rootfsCheck (a : Args) : Except PyExit Unit :=
  if truthy a.rootfs_args then
    match a.domU_args, a.dom0less_args with
    | none, _ => Except.error PyExit.typeError
    | some _, none => Except.error PyExit.typeError
    | some u, some l =>
      if u.length + l.length + 1 < olen a.rootfs_args then
        Except.error (PyExit.exitCode 1)
      else Except.ok ()
  else Except.ok ()

/- Third check: "ensure rootfs and ramdisks don't overrun
domUs + dom0less + dom0" (lines 224-236). -/
def combinedCheck (a : Args) : Except PyExit Unit :=
  if truthy a.ramdisk_args && truthy a.rootfs_args then
    match a.domU_args, a.dom0less_args with
    | none, _ => Except.error PyExit.typeError
    | some _, none => Except.error PyExit.typeError
    | some u, some l =>
      if u.length + l.length + 1 < olen a.ramdisk_args + olen a.rootfs_args then
        Except.error (PyExit.exitCode 1)
      else Except.ok ()
  else Except.ok ()

/- HypervisorSubverb.argument_checks (lines 189-266).  The fourth block
(lines 238-247) only prints an advisory and has no observable effect,
so it is not modelled. -/
def argument_checks (a : Args) : Except PyExit Unit :=
  match ramdiskCheck a with
  | Except.error e => Except.error e
  | Except.ok _ =>
    match rootfsCheck a with
    | Except.error e => Except.error e
    | Except.ok _ => combinedCheck a

/- Observable side effects of a run of main. -/
inductive Effect
  | mkdirAux
  | rmOldImage
  | moveImageToOld
  | copyFile (name : String)
  | writeConfig (text : String)
  | runBootGen
  | runWhoami
  | runDiskImage
  | chownImage
  | mountPart (partition : Nat)
  | mkdirVarLibXen (partition : Nat)
  | sedInittab (partition : Nat)
  | umountPart (partition : Nat)
  | rmAux
deriving DecidableEq

/- Filesystem state consulted by main. -/
structure Env where
  sdExists : Bool
  sdOldExists : Bool
  missingArtifacts : List String
deriving DecidableEq

/- HypervisorSubverb.xen_fixes (lines 268-308): mount the given
partition, create /var/lib/xen, rewrite the getty line of /etc/inittab,
unmount. -/
def xen_fixes (partition : Nat) : List Effect :=
  [Effect.mountPart partition, Effect.mkdirVarLibXen partition,
   Effect.sedInittab partition, Effect.umountPart partition]

/- Lines 355-376: delete a stale sd_card.img.old, then move a
pre-existing sd_card.img to sd_card.img.old. -/
def rotationTrace (env : Env) : List Effect :=
  if env.sdExists then
    (if env.sdOldExists then [Effect.rmOldImage] else []) ++ [Effect.moveImageToOld]
  else []

/- How a run of main terminates. -/
inductive Outcome
  | exited (code : Nat)
  | assertFailed
  | crashed
  | completed
deriving DecidableEq

def exitOutcome : PyExit → Outcome
  | PyExit.exitCode n => Outcome.exited n
  | PyExit.typeError => Outcome.crashed

/- Result of a run of main.  Besides the effect trace, the final value of
the global TEMPLATE_CONFIG and the termination mode, it records the
values taken by the source's local variables at the observation points
the claims are about: num_domus as appended in the NUM_DOMUS line (line
554), the indices and resolved rootfs of the emitted DOMU entries
(lines 463-492), the indices and resolved ramdisks of the emitted
Dom0less entries (lines 513-545), the rootfs resolved for Dom0 (lines
419-438) and the text written to xen.cfg (lines 640-644). -/
structure MainOut where
  trace : List Effect
  tmpl : String
  outcome : Outcome
  numDomus : Option Nat := none
  domUIndices : List Nat := []
  dom0lessIndices : List Nat := []
  domURootfs : List String := []
  dom0lessRamdisk : List String := []
  dom0Rootfs : Option String := none
  configWritten : Option String := none
deriving DecidableEq

/- Rootfs resolution for one domU (lines 446-452). -/
def resolveDomURootfs (ra : Option (List String)) (n : Nat) : String :=
  if !truthy ra || decide (olen ra ≤ n) then default_rootfs else getOpt ra n

/- Ramdisk resolution for one dom0less VM (lines 499-505). -/
def resolveRamdisk (ra : Option (List String)) (n : Nat) : String :=
  if !truthy ra || decide (olen ra ≤ n) then default_ramdisk else getOpt ra n

/- Accumulated output of one of the two per-VM loops. -/
structure LoopOut where
  cfg : String
  counter : Nat
  idxs : List Nat
  paths : List String
  trace : List Effect

/- The "process DomUs" loop (lines 443-492).  `n` is num_domus on entry.
Each iteration copies the kernel to the aux dir, appends
DOMU_KERNEL/DOMU_ROOTFS/DOMU_NOBOOT lines at index num_domus and
increments num_domus. -/
def processDomUs (ra : Option (List String)) : List Variant → Nat → LoopOut
  | [], n => { cfg := "", counter := n, idxs := [], paths := [], trace := [] }
  | v :: rest, n =>
    let rootfs := resolveDomURootfs ra n
    let r := processDomUs ra rest (n + 1)
    { cfg := "DOMU_KERNEL[" ++ toString n ++ "]=\"" ++ variantKernel v ++ "\"\n"
        ++ "DOMU_ROOTFS[" ++ toString n ++ "]=\"" ++ rootfs ++ "\"\n"
        ++ "DOMU_NOBOOT[" ++ toString n ++ "]=y\n" ++ r.cfg
      counter := r.counter
      idxs := n :: r.idxs
      paths := rootfs :: r.paths
      trace := Effect.copyFile (variantKernel v) :: r.trace }

/- The "process Dom0less" loop (lines 497-545).  `nD` is the (fixed)
value of num_domus after the domU loop; `nl` is num_dom0less.  Each
iteration appends DOMU_KERNEL/DOMU_RAMDISK lines at index
num_dom0less + num_domus (no DOMU_NOBOOT line) and increments
num_dom0less. -/
def processDom0less (ra : Option (List String)) (nD : Nat) : List Variant → Nat → LoopOut
  | [], nl => { cfg := "", counter := nl, idxs := [], paths := [], trace := [] }
  | v :: rest, nl =>
    let ramdisk := resolveRamdisk ra nl
    let idx := nl + nD
    let r := processDom0less ra nD rest (nl + 1)
    { cfg := "DOMU_KERNEL[" ++ toString idx ++ "]=\"" ++ variantKernel v ++ "\"\n"
        ++ "DOMU_RAMDISK[" ++ toString idx ++ "]=\"" ++ ramdisk ++ "\"\n" ++ r.cfg
      counter := r.counter
      idxs := idx :: r.idxs
      paths := ramdisk :: r.paths
      trace := Effect.copyFile (variantKernel v) :: r.trace }

/- The per-override staging loops (lines 604-638): each override path is
asserted to exist in the firmware directory and then copied; a failed
assert aborts the run. -/
structure CopyOut where
  tr : List Effect
  ok : Bool

def copyOverrides (env : Env) : List String → CopyOut
  | [] => { tr := [], ok := true }
  | f :: rest =>
    if f ∈ env.missingArtifacts then { tr := [], ok := false }
    else
      let r := copyOverrides env rest
      { tr := Effect.copyFile f :: r.tr, ok := r.ok }

/- Lines 556-763: everything after the NUM_DOMUS line is appended —
static artifact copies, override staging (with asserts), writing
xen.cfg, boot-script generation, disk-image build, chown, the Xen
partition fixups (partition 2, then partition i+2+1 for each domU),
and aux-dir cleanup unless --debug. -/
def stagePhase (env : Env) (a : Args) (base : MainOut) : MainOut :=
  let tr1 := base.trace ++ [Effect.copyFile "BOOT.BIN.xen", Effect.copyFile "xen",
    Effect.copyFile "system.dtb.xen", Effect.copyFile default_ramdisk,
    Effect.copyFile default_rootfs]
  let cR := copyOverrides env (olist a.ramdisk_args)
  if cR.ok = false then
    { base with trace := tr1 ++ cR.tr, outcome := Outcome.assertFailed }
  else
    let cF := copyOverrides env (olist a.rootfs_args)
    if cF.ok = false then
      { base with trace := tr1 ++ cR.tr ++ cF.tr, outcome := Outcome.assertFailed }
    else
      let tr2 := tr1 ++ cR.tr ++ cF.tr
        ++ [Effect.writeConfig base.tmpl, Effect.runBootGen, Effect.runWhoami,
            Effect.runDiskImage, Effect.chownImage]
        ++ xen_fixes 2
        ++ ((List.range (olen a.domU_args)).map (fun i => xen_fixes (i + 2 + 1))).flatten
      let tr3 := if a.debug = false then tr2 ++ [Effect.rmAux] else tr2
      { base with
          trace := tr3
          outcome := Outcome.completed
          configWritten := some base.tmpl }

/- Lines 438-554 once Dom0's rootfs is resolved: append DOM0_ROOTFS, run
the domU loop (num_domus enters as `nd`), run the dom0less loop, add
num_dom0less into num_domus, append NUM_DOMUS, then the staging phase. -/
def afterDom0Rootfs (env : Env) (tmpl : String) (a : Args) (tr : List Effect)
    (rootfs : String) (nd : Nat) : MainOut :=
  let tmpl2 := tmpl ++ "DOM0_ROOTFS=" ++ rootfs ++ "\n"
  let rU := processDomUs a.rootfs_args (olist a.domU_args) nd
  let rL := processDom0less a.ramdisk_args rU.counter (olist a.dom0less_args) 0
  let total := rU.counter + rL.counter
  let tmpl3 := tmpl2 ++ rU.cfg ++ rL.cfg ++ "NUM_DOMUS=" ++ toString total ++ "\n"
  stagePhase env a
    { trace := tr ++ rU.trace ++ rL.trace
      tmpl := tmpl3
      outcome := Outcome.completed
      numDomus := some total
      domUIndices := rU.idxs
      dom0lessIndices := rL.idxs
      domURootfs := rU.paths
      dom0lessRamdisk := rL.paths
      dom0Rootfs := some rootfs }

/- The Dom0 branch (lines 381-763): run argument_checks, choose the dom0
kernel, resolve Dom0's rootfs — num_domus is incremented ("jump over
first rootfs arg", line 434) only when a rootfs override list was
supplied; the default branch asserts that the default rootfs exists. -/
def dom0Branch (env : Env) (tmpl : String) (a : Args) (v : Variant)
    (tr : List Effect) : MainOut :=
  match argument_checks a with
  | Except.error e => { trace := tr, tmpl := tmpl, outcome := exitOutcome e }
  | Except.ok _ =>
    let tr2 := tr ++ [Effect.copyFile (variantKernel v)]
    let tmpl2 := tmpl ++ "DOM0_KERNEL=" ++ variantKernel v ++ "\n"
    if truthy a.rootfs_args = false ∨ olen a.rootfs_args < 1 then
      if default_rootfs ∈ env.missingArtifacts then
        { trace := tr2, tmpl := tmpl2, outcome := Outcome.assertFailed }
      else
        afterDom0Rootfs env tmpl2 a (tr2 ++ [Effect.copyFile default_rootfs])
          default_rootfs 0
    else
      afterDom0Rootfs env tmpl2 a tr2 (getOpt a.rootfs_args 0) 1

/- HypervisorSubverb.main (lines 310-766).  If nothing is requested:
message and sys.exit(0) before any file operation (lines 331-338).
Otherwise the aux dir is created and a pre-existing sd_card.img is
rotated (lines 349-376) BEFORE the dom0 test; without --dom0 the run
then only prints "No dom0 specified, doing nothing." (lines 765-766). -/
def main (env : Env) (tmpl : String) (a : Args) : MainOut :=
  if (a.dom0_arg.isSome || truthy a.domU_args || truthy a.dom0less_args) = false then
    { trace := [], tmpl := tmpl, outcome := Outcome.exited 0 }
  else
    match a.dom0_arg with
    | some v => dom0Branch env tmpl a v (Effect.mkdirAux :: rotationTrace env)
    | none =>
      { trace := Effect.mkdirAux :: rotationTrace env, tmpl := tmpl,
        outcome := Outcome.completed }

/- Partition numbers receiving the /var/lib/xen directory fixup. -/
def dirFixPartitions (tr : List Effect) : List Nat :=
  tr.filterMap (fun e =>
    match e with
    | Effect.mkdirVarLibXen p => some p
    | _ => none)

/- Partition numbers receiving the /etc/inittab getty rewrite. -/
def inittabFixPartitions (tr : List Effect) : List Nat :=
  tr.filterMap (fun e =>
    match e with
    | Effect.sedInittab p => some p
    | _ => none)

/- Concrete inputs used by counterexamples and witnesses. -/

def env0 : Env := { sdExists := false, sdOldExists := false, missingArtifacts := [] }

def envSd : Env := { sdExists := true, sdOldExists := true, missingArtifacts := [] }

def argsC1 : Args :=
  { debug := false, dom0_arg := some Variant.vanilla,
    domU_args := some [Variant.vanilla], dom0less_args := none,
    ramdisk_args := none, rootfs_args := none }

def argsC2 : Args :=
  { debug := false, dom0_arg := some Variant.vanilla,
    domU_args := some [Variant.preempt_rt], dom0less_args := none,
    ramdisk_args := none, rootfs_args := none }

def argsC3 : Args :=
  { debug := false, dom0_arg := some Variant.vanilla,
    domU_args := some [Variant.vanilla], dom0less_args := none,
    ramdisk_args := some ["myramdisk"], rootfs_args := none }

def argsC4 : Args :=
  { debug := false, dom0_arg := some Variant.vanilla,
    domU_args := none, dom0less_args := some [Variant.vanilla],
    ramdisk_args := some ["rd0", "rd1"], rootfs_args := none }

def argsC5 : Args :=
  { debug := false, dom0_arg := some Variant.vanilla,
    domU_args := none, dom0less_args := none,
    ramdisk_args := none, rootfs_args := none }

def argsNone : Args :=
  { debug := false, dom0_arg := none, domU_args := none,
    dom0less_args := none, ramdisk_args := none, rootfs_args := none }

def argsC7 : Args :=
  { debug := false, dom0_arg := none, domU_args := some [Variant.vanilla],
    dom0less_args := none, ramdisk_args := none, rootfs_args := none }

def argsC8 : Args :=
  { debug := false, dom0_arg := some Variant.vanilla,
    domU_args := some [Variant.vanilla, Variant.preempt_rt],
    dom0less_args := some [Variant.vanilla],
    ramdisk_args := some ["rd0"], rootfs_args := some ["rf0", "rf1"] }

def argsC9 : Args :=
  { debug := false, dom0_arg := some Variant.vanilla,
    domU_args := some [Variant.vanilla],
    dom0less_args := some [Variant.vanilla, Variant.vanilla],
    ramdisk_args := some ["rd0"], rootfs_args := none }

def argsC10 : Args :=
  { debug := false, dom0_arg := some Variant.vanilla,
    domU_args := some [Variant.vanilla, Variant.preempt_rt],
    dom0less_args := some [Variant.vanilla],
    ramdisk_args := some ["rd0"], rootfs_args := some ["rf0", "rf1"] }

/- Helper lemmas about the Python-list wrappers. -/

lemma olist_length {α : Type} (o : Option (List α)) : (olist o).length = olen o := by
  cases o <;> rfl

lemma truthy_eq_false {α : Type} (o : Option (List α)) (h : truthy o = false) :
    olist o = [] := by
  cases o with
  | none => rfl
  | some l => simpa [truthy, olist, List.isEmpty_iff] using h

lemma truthy_eq_true {α : Type} (o : Option (List α)) (h : truthy o = true) :
    olist o ≠ [] := by
  cases o with
  | none => simp [truthy] at h
  | some l => simpa [truthy, olist, List.isEmpty_iff] using h

lemma truthy_olen_pos {α : Type} (o : Option (List α)) (h : truthy o = true) :
    1 ≤ olen o := by
  have h2 := truthy_eq_true o h
  rw [← olist_length]
  cases hl : olist o with
  | nil => exact absurd hl h2
  | cons x xs => simp

lemma resolveDomURootfs_eq (ra : Option (List String)) (n : Nat) :
    resolveDomURootfs ra n = ((olist ra)[n]?).getD default_rootfs := by
  unfold resolveDomURootfs
  cases hb : truthy ra with
  | false =>
    have h0 : olist ra = [] := truthy_eq_false ra hb
    simp [h0]
  | true =>
    by_cases hn : olen ra ≤ n
    · have hlen : (olist ra).length ≤ n := by rw [olist_length]; exact hn
      simp [hb, hn, List.getElem?_eq_none hlen]
    · have hlt : n < (olist ra).length := by rw [olist_length]; omega
      simp [hb, hn, getOpt, List.getD_eq_getElem?_getD, List.getElem?_eq_getElem hlt]

lemma resolveRamdisk_eq (ra : Option (List String)) (n : Nat) :
    resolveRamdisk ra n = ((olist ra)[n]?).getD default_ramdisk := by
  unfold resolveRamdisk
  cases hb : truthy ra with
  | false =>
    have h0 : olist ra = [] := truthy_eq_false ra hb
    simp [h0]
  | true =>
    by_cases hn : olen ra ≤ n
    · have hlen : (olist ra).length ≤ n := by rw [olist_length]; exact hn
      simp [hb, hn, List.getElem?_eq_none hlen]
    · have hlt : n < (olist ra).length := by rw [olist_length]; omega
      simp [hb, hn, getOpt, List.getD_eq_getElem?_getD, List.getElem?_eq_getElem hlt]

lemma getOpt_zero_eq (o : Option (List String)) (h : truthy o = true) :
    getOpt o 0 = ((olist o)[0]?).getD default_rootfs := by
  have hne := truthy_eq_true o h
  cases hl : olist o with
  | nil => exact absurd hl hne
  | cons x xs => simp [getOpt, hl]

/- Closed forms of the two per-VM loops. -/

lemma processDomUs_counter (ra : Option (List String)) (vs : List Variant) (n : Nat) :
    (processDomUs ra vs n).counter = n + vs.length := by
  induction vs generalizing n with
  | nil => rfl
  | cons v rest ih =>
    have h : (processDomUs ra (v :: rest) n).counter
        = (processDomUs ra rest (n + 1)).counter := rfl
    rw [h, ih]
    simp [List.length_cons]
    omega

lemma processDomUs_idxs (ra : Option (List String)) (vs : List Variant) (n : Nat) :
    (processDomUs ra vs n).idxs = (List.range vs.length).map (fun k => n + k) := by
  induction vs generalizing n with
  | nil => rfl
  | cons v rest ih =>
    have h : (processDomUs ra (v :: rest) n).idxs
        = n :: (processDomUs ra rest (n + 1)).idxs := rfl
    rw [h, ih, List.length_cons, List.range_succ_eq_map, List.map_cons, List.map_map]
    congr 1
    apply List.map_congr_left
    intro k _
    simp [Function.comp, Nat.succ_eq_add_one]
    omega

lemma processDomUs_paths (ra : Option (List String)) (vs : List Variant) (n : Nat) :
    (processDomUs ra vs n).paths
      = (List.range vs.length).map (fun k => resolveDomURootfs ra (n + k)) := by
  induction vs generalizing n with
  | nil => rfl
  | cons v rest ih =>
    have h : (processDomUs ra (v :: rest) n).paths
        = resolveDomURootfs ra n :: (processDomUs ra rest (n + 1)).paths := rfl
    rw [h, ih, List.length_cons, List.range_succ_eq_map, List.map_cons, List.map_map]
    congr 1
    apply List.map_congr_left
    intro k _
    simp [Function.comp, Nat.succ_eq_add_one]
    congr 1
    omega

lemma processDomUs_trace (ra : Option (List String)) (vs : List Variant) (n : Nat) :
    (processDomUs ra vs n).trace
      = vs.map (fun v => Effect.copyFile (variantKernel v)) := by
  induction vs generalizing n with
  | nil => rfl
  | cons v rest ih =>
    have h : (processDomUs ra (v :: rest) n).trace
        = Effect.copyFile (variantKernel v) :: (processDomUs ra rest (n + 1)).trace := rfl
    rw [h, ih, List.map_cons]

lemma processDom0less_counter (ra : Option (List String)) (nD : Nat)
    (vs : List Variant) (nl : Nat) :
    (processDom0less ra nD vs nl).counter = nl + vs.length := by
  induction vs generalizing nl with
  | nil => rfl
  | cons v rest ih =>
    have h : (processDom0less ra nD (v :: rest) nl).counter
        = (processDom0less ra nD rest (nl + 1)).counter := rfl
    rw [h, ih]
    simp [List.length_cons]
    omega

lemma processDom0less_idxs (ra : Option (List String)) (nD : Nat)
    (vs : List Variant) (nl : Nat) :
    (processDom0less ra nD vs nl).idxs
      = (List.range vs.length).map (fun j => nl + j + nD) := by
  induction vs generalizing nl with
  | nil => rfl
  | cons v rest ih =>
    have h : (processDom0less ra nD (v :: rest) nl).idxs
        = (nl + nD) :: (processDom0less ra nD rest (nl + 1)).idxs := rfl
    rw [h, ih, List.length_cons, List.range_succ_eq_map, List.map_cons, List.map_map]
    congr 1
    apply List.map_congr_left
    intro k _
    simp [Function.comp, Nat.succ_eq_add_one]
    omega

lemma processDom0less_paths (ra : Option (List String)) (nD : Nat)
    (vs : List Variant) (nl : Nat) :
    (processDom0less ra nD vs nl).paths
      = (List.range vs.length).map (fun j => resolveRamdisk ra (nl + j)) := by
  induction vs generalizing nl with
  | nil => rfl
  | cons v rest ih =>
    have h : (processDom0less ra nD (v :: rest) nl).paths
        = resolveRamdisk ra nl :: (processDom0less ra nD rest (nl + 1)).paths := rfl
    rw [h, ih, List.length_cons, List.range_succ_eq_map, List.map_cons, List.map_map]
    congr 1
    apply List.map_congr_left
    intro k _
    simp [Function.comp, Nat.succ_eq_add_one]
    congr 1
    omega

lemma processDom0less_trace (ra : Option (List String)) (nD : Nat)
    (vs : List Variant) (nl : Nat) :
    (processDom0less ra nD vs nl).trace
      = vs.map (fun v => Effect.copyFile (variantKernel v)) := by
  induction vs generalizing nl with
  | nil => rfl
  | cons v rest ih =>
    have h : (processDom0less ra nD (v :: rest) nl).trace
        = Effect.copyFile (variantKernel v) :: (processDom0less ra nD rest (nl + 1)).trace := rfl
    rw [h, ih, List.map_cons]

/- Lemmas about the partition-fixup extractors. -/

lemma dirFix_append (l1 l2 : List Effect) :
    dirFixPartitions (l1 ++ l2) = dirFixPartitions l1 ++ dirFixPartitions l2 :=
  List.filterMap_append l1 l2 _

lemma inittabFix_append (l1 l2 : List Effect) :
    inittabFixPartitions (l1 ++ l2) = inittabFixPartitions l1 ++ inittabFixPartitions l2 :=
  List.filterMap_append l1 l2 _

lemma dirFix_cons_copy (s : String) (l : List Effect) :
    dirFixPartitions (Effect.copyFile s :: l) = dirFixPartitions l := by
  simp [dirFixPartitions, List.filterMap_cons]

lemma inittabFix_cons_copy (s : String) (l : List Effect) :
    inittabFixPartitions (Effect.copyFile s :: l) = inittabFixPartitions l := by
  simp [inittabFixPartitions, List.filterMap_cons]

lemma dirFix_copies {α : Type} (f : α → String) (l : List α) :
    dirFixPartitions (l.map (fun x => Effect.copyFile (f x))) = [] := by
  induction l with
  | nil => rfl
  | cons x xs ih => rw [List.map_cons, dirFix_cons_copy]; exact ih

lemma inittabFix_copies {α : Type} (f : α → String) (l : List α) :
    inittabFixPartitions (l.map (fun x => Effect.copyFile (f x))) = [] := by
  induction l with
  | nil => rfl
  | cons x xs ih => rw [List.map_cons, inittabFix_cons_copy]; exact ih

lemma dirFix_rotation (env : Env) : dirFixPartitions (rotationTrace env) = [] := by
  unfold rotationTrace
  split
  · split <;> simp [dirFixPartitions, List.filterMap_cons, List.filterMap_append]
  · rfl

lemma inittabFix_rotation (env : Env) : inittabFixPartitions (rotationTrace env) = [] := by
  unfold rotationTrace
  split
  · split <;> simp [inittabFixPartitions, List.filterMap_cons, List.filterMap_append]
  · rfl

lemma dirFix_copyOverrides (env : Env) (fs : List String) :
    dirFixPartitions (copyOverrides env fs).tr = [] := by
  induction fs with
  | nil => rfl
  | cons f rest ih =>
    unfold copyOverrides
    split
    · rfl
    · rw [show (let r := copyOverrides env rest;
          ({ tr := Effect.copyFile f :: r.tr, ok := r.ok } : CopyOut)).tr
          = Effect.copyFile f :: (copyOverrides env rest).tr from rfl]
      rw [dirFix_cons_copy]
      exact ih

lemma inittabFix_copyOverrides (env : Env) (fs : List String) :
    inittabFixPartitions (copyOverrides env fs).tr = [] := by
  induction fs with
  | nil => rfl
  | cons f rest ih =>
    unfold copyOverrides
    split
    · rfl
    · rw [show (let r := copyOverrides env rest;
          ({ tr := Effect.copyFile f :: r.tr, ok := r.ok } : CopyOut)).tr
          = Effect.copyFile f :: (copyOverrides env rest).tr from rfl]
      rw [inittabFix_cons_copy]
      exact ih

lemma dirFix_flatten_fixes (l : List Nat) :
    dirFixPartitions ((l.map xen_fixes).flatten) = l := by
  induction l with
  | nil => rfl
  | cons p rest ih =>
    rw [List.map_cons, List.flatten_cons, dirFix_append, ih]
    simp [xen_fixes, dirFixPartitions, List.filterMap_cons]

lemma inittabFix_flatten_fixes (l : List Nat) :
    inittabFixPartitions ((l.map xen_fixes).flatten) = l := by
  induction l with
  | nil => rfl
  | cons p rest ih =>
    rw [List.map_cons, List.flatten_cons, inittabFix_append, ih]
    simp [xen_fixes, inittabFixPartitions, List.filterMap_cons]

/- The staging phase only appends to the trace, sets the outcome and
records the written configuration; the planning fields pass through. -/

lemma stagePhase_fields (env : Env) (a : Args) (b : MainOut) :
    (stagePhase env a b).tmpl = b.tmpl ∧
    (stagePhase env a b).numDomus = b.numDomus ∧
    (stagePhase env a b).domUIndices = b.domUIndices ∧
    (stagePhase env a b).dom0lessIndices = b.dom0lessIndices ∧
    (stagePhase env a b).domURootfs = b.domURootfs ∧
    (stagePhase env a b).dom0lessRamdisk = b.dom0lessRamdisk ∧
    (stagePhase env a b).dom0Rootfs = b.dom0Rootfs := by
  simp only [stagePhase]
  by_cases c1 : (copyOverrides env (olist a.ramdisk_args)).ok = false
  · simp [c1]
  · by_cases c2 : (copyOverrides env (olist a.rootfs_args)).ok = false
    · simp [c1, c2]
    · by_cases c3 : a.debug = false
      · simp [c1, c2, c3]
      · simp [c1, c2, c3]

lemma stagePhase_configWritten (env : Env) (a : Args) (b : MainOut) (s : String)
    (hb : b.configWritten = none)
    (h : (stagePhase env a b).configWritten = some s) : s = b.tmpl := by
  simp only [stagePhase] at h
  by_cases c1 : (copyOverrides env (olist a.ramdisk_args)).ok = false
  · simp [c1, hb] at h
  · by_cases c2 : (copyOverrides env (olist a.rootfs_args)).ok = false
    · simp [c1, c2, hb] at h
    · simp [c1, c2] at h
      exact h.symm


/- Fields of afterDom0Rootfs in closed form. -/

lemma afterDom0_numDomus (env : Env) (tmpl : String) (a : Args) (tr : List Effect)
    (rootfs : String) (nd : Nat) :
    (afterDom0Rootfs env tmpl a tr rootfs nd).numDomus
      = some (nd + olen a.domU_args + olen a.dom0less_args) := by
  simp only [afterDom0Rootfs]
  rw [(stagePhase_fields _ _ _).2.1]
  simp only [processDomUs_counter, processDom0less_counter, olist_length]
  congr 1
  omega

lemma afterDom0_domUIndices (env : Env) (tmpl : String) (a : Args) (tr : List Effect)
    (rootfs : String) (nd : Nat) :
    (afterDom0Rootfs env tmpl a tr rootfs nd).domUIndices
      = (List.range (olen a.domU_args)).map (fun k => nd + k) := by
  simp only [afterDom0Rootfs]
  rw [(stagePhase_fields _ _ _).2.2.1]
  simp only [processDomUs_idxs, olist_length]

lemma afterDom0_dom0lessIndices (env : Env) (tmpl : String) (a : Args) (tr : List Effect)
    (rootfs : String) (nd : Nat) :
    (afterDom0Rootfs env tmpl a tr rootfs nd).dom0lessIndices
      = (List.range (olen a.dom0less_args)).map (fun j => nd + olen a.domU_args + j) := by
  simp only [afterDom0Rootfs]
  rw [(stagePhase_fields _ _ _).2.2.2.1]
  simp only [processDom0less_idxs, processDomUs_counter, olist_length]
  apply List.map_congr_left
  intro j _
  omega

lemma afterDom0_domURootfs (env : Env) (tmpl : String) (a : Args) (tr : List Effect)
    (rootfs : String) (nd : Nat) :
    (afterDom0Rootfs env tmpl a tr rootfs nd).domURootfs
      = (List.range (olen a.domU_args)).map
          (fun k => resolveDomURootfs a.rootfs_args (nd + k)) := by
  simp only [afterDom0Rootfs]
  rw [(stagePhase_fields _ _ _).2.2.2.2.1]
  simp only [processDomUs_paths, olist_length]

lemma afterDom0_dom0lessRamdisk (env : Env) (tmpl : String) (a : Args) (tr : List Effect)
    (rootfs : String) (nd : Nat) :
    (afterDom0Rootfs env tmpl a tr rootfs nd).dom0lessRamdisk
      = (List.range (olen a.dom0less_args)).map
          (fun j => resolveRamdisk a.ramdisk_args j) := by
  simp only [afterDom0Rootfs]
  rw [(stagePhase_fields _ _ _).2.2.2.2.2.1]
  simp only [processDom0less_paths, olist_length]
  apply List.map_congr_left
  intro j _
  congr 1
  omega

lemma afterDom0_dom0Rootfs (env : Env) (tmpl : String) (a : Args) (tr : List Effect)
    (rootfs : String) (nd : Nat) :
    (afterDom0Rootfs env tmpl a tr rootfs nd).dom0Rootfs = some rootfs := by
  simp only [afterDom0Rootfs]
  rw [(stagePhase_fields _ _ _).2.2.2.2.2.2]

lemma afterDom0_tmpl_ge (env : Env) (tmpl : String) (a : Args) (tr : List Effect)
    (rootfs : String) (nd : Nat) :
    tmpl.length ≤ (afterDom0Rootfs env tmpl a tr rootfs nd).tmpl.length := by
  simp only [afterDom0Rootfs]
  rw [(stagePhase_fields _ _ _).1]
  simp [String.length_append]
  omega

lemma afterDom0_configWritten (env : Env) (tmpl : String) (a : Args) (tr : List Effect)
    (rootfs : String) (nd : Nat) (s : String)
    (h : (afterDom0Rootfs env tmpl a tr rootfs nd).configWritten = some s) :
    s = (afterDom0Rootfs env tmpl a tr rootfs nd).tmpl := by
  simp only [afterDom0Rootfs] at h ⊢
  rw [(stagePhase_fields _ _ _).1]
  exact stagePhase_configWritten _ _ _ _ rfl h

lemma dirFix_cons_mkdirAux (l : List Effect) :
    dirFixPartitions (Effect.mkdirAux :: l) = dirFixPartitions l := by
  simp [dirFixPartitions, List.filterMap_cons]

lemma inittabFix_cons_mkdirAux (l : List Effect) :
    inittabFixPartitions (Effect.mkdirAux :: l) = inittabFixPartitions l := by
  simp [inittabFixPartitions, List.filterMap_cons]

lemma exitOutcome_ne_completed (e : PyExit) : exitOutcome e ≠ Outcome.completed := by
  cases e <;> simp [exitOutcome]

lemma dom0_default_truthy (o : Option (List String))
    (h : truthy o = false ∨ olen o < 1) : truthy o = false := by
  rcases h with h | h
  · exact h
  · cases ht : truthy o
    · rfl
    · have := truthy_olen_pos o ht
      omega

/- Every run that reaches the configuration-emission phase went through
the Dom0 branch with passing argument checks; its Dom0 rootfs and the
initial num_domus are determined by whether rootfs overrides were
supplied. -/
lemma main_config_path (env : Env) (tmpl : String) (a : Args)
    (h : (main env tmpl a).numDomus.isSome = true
       ∨ (main env tmpl a).configWritten.isSome = true
       ∨ ((main env tmpl a).outcome = Outcome.completed ∧ a.dom0_arg.isSome = true)) :
    ∃ v trD,
      a.dom0_arg = some v ∧
      argument_checks a = Except.ok () ∧
      dirFixPartitions trD = [] ∧
      inittabFixPartitions trD = [] ∧
      main env tmpl a
        = afterDom0Rootfs env (tmpl ++ "DOM0_KERNEL=" ++ variantKernel v ++ "\n") a trD
            (((olist a.rootfs_args)[0]?).getD default_rootfs)
            (if truthy a.rootfs_args then 1 else 0) := by
  unfold main at h ⊢
  by_cases h0 : (a.dom0_arg.isSome || truthy a.domU_args || truthy a.dom0less_args) = false
  · rw [if_pos h0] at h
    simp at h
  · rw [if_neg h0] at h ⊢
    cases hd : a.dom0_arg with
    | none =>
      rw [hd] at h
      simp at h
    | some v =>
      rw [hd] at h
      dsimp only at h ⊢
      simp only [dom0Branch] at h ⊢
      cases hc : argument_checks a with
      | error e =>
        rw [hc] at h
        cases e <;> simp [exitOutcome] at h
      | ok u =>
        rw [hc] at h
        dsimp only at h ⊢
        by_cases hr : truthy a.rootfs_args = false ∨ olen a.rootfs_args < 1
        · have ht : truthy a.rootfs_args = false := dom0_default_truthy _ hr
          have hol : olist a.rootfs_args = [] := truthy_eq_false _ ht
          rw [if_pos hr] at h ⊢
          by_cases hm : default_rootfs ∈ env.missingArtifacts
          · rw [if_pos hm] at h
            simp at h
          · rw [if_neg hm] at h ⊢
            refine ⟨v, (Effect.mkdirAux :: rotationTrace env)
                ++ [Effect.copyFile (variantKernel v)]
                ++ [Effect.copyFile default_rootfs], rfl, rfl, ?_, ?_, ?_⟩
            · rw [show Effect.mkdirAux :: rotationTrace env
                    ++ [Effect.copyFile (variantKernel v)]
                    ++ [Effect.copyFile default_rootfs]
                  = Effect.mkdirAux :: (rotationTrace env
                    ++ [Effect.copyFile (variantKernel v)]
                    ++ [Effect.copyFile default_rootfs]) from rfl,
                dirFix_cons_mkdirAux, dirFix_append, dirFix_append, dirFix_rotation]
              rfl
            · rw [show Effect.mkdirAux :: rotationTrace env
                    ++ [Effect.copyFile (variantKernel v)]
                    ++ [Effect.copyFile default_rootfs]
                  = Effect.mkdirAux :: (rotationTrace env
                    ++ [Effect.copyFile (variantKernel v)]
                    ++ [Effect.copyFile default_rootfs]) from rfl,
                inittabFix_cons_mkdirAux, inittabFix_append, inittabFix_append,
                inittabFix_rotation]
              rfl
            · rw [ht, hol]
              simp
        · have ht2 : truthy a.rootfs_args = true := by
            cases htc : truthy a.rootfs_args
            · exact absurd (Or.inl htc) hr
            · rfl
          rw [if_neg hr] at h ⊢
          refine ⟨v, (Effect.mkdirAux :: rotationTrace env)
              ++ [Effect.copyFile (variantKernel v)], rfl, rfl, ?_, ?_, ?_⟩
          · rw [show Effect.mkdirAux :: rotationTrace env
                  ++ [Effect.copyFile (variantKernel v)]
                = Effect.mkdirAux :: (rotationTrace env
                  ++ [Effect.copyFile (variantKernel v)]) from rfl,
              dirFix_cons_mkdirAux, dirFix_append, dirFix_rotation]
            rfl
          · rw [show Effect.mkdirAux :: rotationTrace env
                  ++ [Effect.copyFile (variantKernel v)]
                = Effect.mkdirAux :: (rotationTrace env
                  ++ [Effect.copyFile (variantKernel v)]) from rfl,
              inittabFix_cons_mkdirAux, inittabFix_append, inittabFix_rotation]
            rfl
          · rw [getOpt_zero_eq _ ht2, ht2]
            simp


/- Validation failures always carry process exit status 1. -/

lemma ramdiskCheck_error (a : Args) (e : PyExit)
    (h : ramdiskCheck a = Except.error e) : e = PyExit.exitCode 1 := by
  unfold ramdiskCheck at h
  split at h
  · exact (Except.error.inj h).symm
  · exact absurd h (by simp)

lemma rootfsCheck_error (a : Args) (e : PyExit)
    (h : rootfsCheck a = Except.error e) : exitCodeOf e = 1 := by
  unfold rootfsCheck at h
  repeat' split at h
  all_goals first
  | (cases Except.error.inj h; rfl)
  | (exact absurd h (by simp))

lemma combinedCheck_error (a : Args) (e : PyExit)
    (h : combinedCheck a = Except.error e) : exitCodeOf e = 1 := by
  unfold combinedCheck at h
  repeat' split at h
  all_goals first
  | (cases Except.error.inj h; rfl)
  | (exact absurd h (by simp))

lemma argument_checks_error (a : Args) (e : PyExit)
    (h : argument_checks a = Except.error e) : exitCodeOf e = 1 := by
  unfold argument_checks at h
  cases h1 : ramdiskCheck a with
  | error e1 =>
    rw [h1] at h
    dsimp only at h
    cases Except.error.inj h
    rw [ramdiskCheck_error a e h1]
    rfl
  | ok u1 =>
    rw [h1] at h
    dsimp only at h
    cases h2 : rootfsCheck a with
    | error e2 =>
      rw [h2] at h
      dsimp only at h
      cases Except.error.inj h
      exact rootfsCheck_error a e h2
    | ok u2 =>
      rw [h2] at h
      dsimp only at h
      exact combinedCheck_error a e h

/-- Claim C3 is false as stated: with dom0 requested, one domU, zero
dom0less VMs and one ramdisk override (more ramdisks than dom0less VMs),
argument_checks accepts the invocation and the run completes — the
ramdisk bound is not enforced when no dom0less VM is requested. -/
theorem C3_counterexample :
    argument_checks argsC3 = Except.ok ()
    ∧ (main env0 TEMPLATE_CONFIG argsC3).outcome = Outcome.completed
    ∧ olen argsC3.dom0less_args < olen argsC3.ramdisk_args :=
  ⟨rfl, rfl, by decide⟩

/-- Claim C3 (amended): the ramdisk-count check of argument_checks
rejects (sys.exit(1)) exactly when ramdisk overrides were supplied, at
least one dom0less VM was requested, and the ramdisk count exceeds the
dom0less count.  The domU count is irrelevant, and when zero dom0less
VMs are requested excess ramdisk overrides pass this check: both
disjuncts of the source condition require dom0less_args to be truthy. -/
theorem C3_ramdiskCheckCharacterization (a : Args) :
    ramdiskCheck a
      = if truthy a.ramdisk_args && truthy a.dom0less_args
            && decide (olen a.dom0less_args < olen a.ramdisk_args)
        then Except.error (PyExit.exitCode 1) else Except.ok () := by
  have h : ramdiskCheckCond a
      = (truthy a.ramdisk_args && truthy a.dom0less_args
          && decide (olen a.dom0less_args < olen a.ramdisk_args)) := by
    unfold ramdiskCheckCond
    cases truthy a.ramdisk_args <;> cases truthy a.domU_args
      <;> cases truthy a.dom0less_args <;> simp
    omega
  unfold ramdiskCheck
  rw [h]

/-- Claim C6: when none of dom0, domU and dom0less is requested, main
terminates immediately via sys.exit(0) — before any file operation, so
with an empty effect trace and with the template untouched — while every
argument_checks validation failure terminates the process with status 1
(sys.exit(1), or the interpreter status 1 of the uncaught TypeError). -/
theorem C6_exitCodes (env : Env) (tmpl : String) (a : Args) (e : PyExit) :
    ((a.dom0_arg.isSome || truthy a.domU_args || truthy a.dom0less_args) = false →
      main env tmpl a = { trace := [], tmpl := tmpl, outcome := Outcome.exited 0 })
    ∧ (argument_checks a = Except.error e → exitCodeOf e = 1) := by
  constructor
  · intro h
    unfold main
    rw [if_pos h]
  · intro h
    exact argument_checks_error a e h

theorem C6_exitCodes_witness :
    main env0 TEMPLATE_CONFIG argsNone
      = { trace := [], tmpl := TEMPLATE_CONFIG, outcome := Outcome.exited 0 }
    ∧ exitCodeOf (PyExit.exitCode 1) = 1 :=
  ⟨(C6_exitCodes env0 TEMPLATE_CONFIG argsNone (PyExit.exitCode 1)).1 rfl,
   (C6_exitCodes env0 TEMPLATE_CONFIG argsC4 (PyExit.exitCode 1)).2 rfl⟩

/-- Claim C7: with dom0 absent but at least one domU or dom0less VM
requested, the run falls into the final else branch ("No dom0 specified,
doing nothing."): its whole output is the aux-dir creation and the
sd_card.img rotation — no VM entry is processed (no indices, no
resolved paths), no configuration text is generated or written, and no
image-build command is issued. -/
theorem C7_noDom0NoProcessing (env : Env) (tmpl : String) (a : Args)
    (h1 : a.dom0_arg = none)
    (h2 : (truthy a.domU_args || truthy a.dom0less_args) = true) :
    main env tmpl a
      = { trace := Effect.mkdirAux :: rotationTrace env, tmpl := tmpl,
          outcome := Outcome.completed } := by
  unfold main
  rw [h1]
  simp [h2]

theorem C7_noDom0NoProcessing_witness :
    main env0 TEMPLATE_CONFIG argsC7
      = { trace := Effect.mkdirAux :: rotationTrace env0, tmpl := TEMPLATE_CONFIG,
          outcome := Outcome.completed } :=
  C7_noDom0NoProcessing env0 TEMPLATE_CONFIG argsC7 rfl rfl

/-- Claim C4 is false as stated: an invocation that fails validation
(dom0 with one dom0less VM but two ramdisk overrides), run with a
pre-existing sd_card.img and sd_card.img.old, terminates with exit
status 1, yet its trace already contains the deletion of
sd_card.img.old and the rename of sd_card.img — file operations happen
before validation. -/
theorem C4_counterexample :
    (main envSd TEMPLATE_CONFIG argsC4).outcome = Outcome.exited 1
    ∧ Effect.moveImageToOld ∈ (main envSd TEMPLATE_CONFIG argsC4).trace
    ∧ Effect.rmOldImage ∈ (main envSd TEMPLATE_CONFIG argsC4).trace := by
  refine ⟨rfl, ?_, ?_⟩ <;> decide

/-- Claim C4 (amended): a validation failure terminates the run with no
configuration written, no image built and the template untouched — but
only after the auxiliary directory has been created and a pre-existing
sd_card.img has been rotated (sd_card.img.old deleted, sd_card.img
renamed to sd_card.img.old): those file operations precede
argument_checks, which is the exact trace of every failing run. -/
theorem C4_validationAfterRotation (env : Env) (tmpl : String) (a : Args)
    (v : Variant) (e : PyExit)
    (h1 : a.dom0_arg = some v)
    (h2 : argument_checks a = Except.error e) :
    main env tmpl a
      = { trace := Effect.mkdirAux :: rotationTrace env, tmpl := tmpl,
          outcome := exitOutcome e } := by
  unfold main
  rw [h1]
  simp [dom0Branch, h2]

theorem C4_validationAfterRotation_witness :
    main envSd TEMPLATE_CONFIG argsC4
      = { trace := Effect.mkdirAux :: rotationTrace envSd, tmpl := TEMPLATE_CONFIG,
          outcome := exitOutcome (PyExit.exitCode 1) } :=
  C4_validationAfterRotation envSd TEMPLATE_CONFIG argsC4 Variant.vanilla
    (PyExit.exitCode 1) rfl rfl

/-- Claim C1 is false as stated: with dom0 requested, one domU and no
overrides, the emitted NUM_DOMUS value is 1, not
(1 for dom0) + 1 domU + 0 dom0less = 2: without rootfs overrides the
dom0 pass never increments num_domus. -/
theorem C1_counterexample :
    (main env0 TEMPLATE_CONFIG argsC1).numDomus = some 1
    ∧ (main env0 TEMPLATE_CONFIG argsC1).numDomus
        ≠ some (1 + olen argsC1.domU_args + olen argsC1.dom0less_args) :=
  ⟨rfl, by decide⟩

/-- Claim C1 (amended): whenever the NUM_DOMUS line is emitted, its
value equals (1 if at least one rootfs override was supplied else 0)
+ number of domU requests + number of dom0less requests: num_domus is
incremented for dom0 only in the rootfs-override branch ("jump over
first rootfs arg", line 434), so the recorded count depends on the
rootfs overrides rather than on dom0 being requested. -/
theorem C1_numDomusValue (env : Env) (tmpl : String) (a : Args) (n : Nat)
    (h : (main env tmpl a).numDomus = some n) :
    n = (if truthy a.rootfs_args then 1 else 0)
        + olen a.domU_args + olen a.dom0less_args := by
  obtain ⟨v, trD, hd, hc, hdir, hint, hm⟩ :=
    main_config_path env tmpl a (Or.inl (by rw [h]; rfl))
  rw [hm, afterDom0_numDomus] at h
  exact (Option.some_inj.mp h).symm

theorem C1_numDomusValue_witness :
    (1 : Nat) = (if truthy argsC1.rootfs_args then 1 else 0)
        + olen argsC1.domU_args + olen argsC1.dom0less_args :=
  C1_numDomusValue env0 TEMPLATE_CONFIG argsC1 1 rfl

/-- Claim C2 is false as stated: with dom0 and one domU requested and no
overrides, the domU entry is emitted at index 0, not 1 — the DOMU array
indices only start at 1 when a rootfs override list is supplied. -/
theorem C2_counterexample :
    (main env0 TEMPLATE_CONFIG argsC2).domUIndices = [0]
    ∧ (main env0 TEMPLATE_CONFIG argsC2).domUIndices ≠ [1] :=
  ⟨rfl, by decide⟩

/-- Claim C2 (amended): the DOMU-array indices are assigned strictly
sequentially with no gaps and no reuse, to the domU entries in
user-supplied order and then the dom0less entries in user-supplied
order, starting at 1 when at least one rootfs override was supplied and
at 0 otherwise (dom0 itself has no index: its keys are the scalar
DOM0_KERNEL and DOM0_ROOTFS). -/
theorem C2_sequentialIndices (env : Env) (tmpl : String) (a : Args) (n : Nat)
    (h : (main env tmpl a).numDomus = some n) :
    (main env tmpl a).domUIndices ++ (main env tmpl a).dom0lessIndices
      = (List.range (olen a.domU_args + olen a.dom0less_args)).map
          (fun k => (if truthy a.rootfs_args then 1 else 0) + k) := by
  obtain ⟨v, trD, hd, hc, hdir, hint, hm⟩ :=
    main_config_path env tmpl a (Or.inl (by rw [h]; rfl))
  rw [hm, afterDom0_domUIndices, afterDom0_dom0lessIndices, List.range_add,
    List.map_append, List.map_map]
  congr 1
  apply List.map_congr_left
  intro j _
  simp [Function.comp]
  omega

theorem C2_sequentialIndices_witness :
    (main env0 TEMPLATE_CONFIG argsC2).domUIndices
        ++ (main env0 TEMPLATE_CONFIG argsC2).dom0lessIndices
      = (List.range (olen argsC2.domU_args + olen argsC2.dom0less_args)).map
          (fun k => (if truthy argsC2.rootfs_args then 1 else 0) + k) :=
  C2_sequentialIndices env0 TEMPLATE_CONFIG argsC2 1 rfl


/-- Claim C8: the two override cursors are independent.  Whenever the
configuration is emitted, the Dom0 slot resolves to rootfs override 0
(default if absent), the k-th domU slot resolves to rootfs override
k + 1 (default beyond the supplied list), and the j-th dom0less slot
resolves to ramdisk override j (default beyond the supplied list):
rootfs overrides are consumed left-to-right by dom0 then the domU slots
only, ramdisk overrides left-to-right by the dom0less slots only, and
no slot ever receives an override of the other kind. -/
theorem C8_independentCursors (env : Env) (tmpl : String) (a : Args) (n : Nat)
    (h : (main env tmpl a).numDomus = some n) :
    (main env tmpl a).dom0Rootfs
        = some (((olist a.rootfs_args)[0]?).getD default_rootfs)
    ∧ (main env tmpl a).domURootfs
        = (List.range (olen a.domU_args)).map
            (fun k => ((olist a.rootfs_args)[k + 1]?).getD default_rootfs)
    ∧ (main env tmpl a).dom0lessRamdisk
        = (List.range (olen a.dom0less_args)).map
            (fun j => ((olist a.ramdisk_args)[j]?).getD default_ramdisk) := by
  obtain ⟨v, trD, hd, hc, hdir, hint, hm⟩ :=
    main_config_path env tmpl a (Or.inl (by rw [h]; rfl))
  refine ⟨?_, ?_, ?_⟩
  · rw [hm, afterDom0_dom0Rootfs]
  · rw [hm, afterDom0_domURootfs]
    apply List.map_congr_left
    intro k _
    rw [resolveDomURootfs_eq]
    cases ht : truthy a.rootfs_args
    · have hol : olist a.rootfs_args = [] := truthy_eq_false _ ht
      simp [hol]
    · simp only [if_pos]
      congr 2
      omega
  · rw [hm, afterDom0_dom0lessRamdisk]
    apply List.map_congr_left
    intro j _
    exact resolveRamdisk_eq _ _

theorem C8_independentCursors_witness :
    (main env0 TEMPLATE_CONFIG argsC8).dom0Rootfs
        = some (((olist argsC8.rootfs_args)[0]?).getD default_rootfs)
    ∧ (main env0 TEMPLATE_CONFIG argsC8).domURootfs
        = (List.range (olen argsC8.domU_args)).map
            (fun k => ((olist argsC8.rootfs_args)[k + 1]?).getD default_rootfs)
    ∧ (main env0 TEMPLATE_CONFIG argsC8).dom0lessRamdisk
        = (List.range (olen argsC8.dom0less_args)).map
            (fun j => ((olist argsC8.ramdisk_args)[j]?).getD default_ramdisk) :=
  C8_independentCursors env0 TEMPLATE_CONFIG argsC8 4 rfl

/-- Claim C9: with no rootfs overrides supplied, the Dom0 slot and every
domU slot resolve to the default rootfs "rootfs.cpio.gz"; and every
dom0less slot at a position beyond the supplied ramdisk overrides
resolves to the default ramdisk "initrd.cpio". -/
theorem C9_defaultResolution (env : Env) (tmpl : String) (a : Args) (n : Nat)
    (h1 : (main env tmpl a).numDomus = some n)
    (h2 : a.rootfs_args = none) :
    (main env tmpl a).dom0Rootfs = some "rootfs.cpio.gz"
    ∧ (main env tmpl a).domURootfs
        = List.replicate (olen a.domU_args) "rootfs.cpio.gz"
    ∧ ∀ j, olen a.ramdisk_args ≤ j → j < olen a.dom0less_args →
        (main env tmpl a).dom0lessRamdisk[j]? = some "initrd.cpio" := by
  obtain ⟨v, trD, hd, hc, hdir, hint, hm⟩ :=
    main_config_path env tmpl a (Or.inl (by rw [h1]; rfl))
  refine ⟨?_, ?_, ?_⟩
  · rw [hm, afterDom0_dom0Rootfs, h2]
    rfl
  · rw [hm, afterDom0_domURootfs, h2]
    rw [show (fun k : Nat => resolveDomURootfs none
          ((if truthy (none : Option (List String)) then 1 else 0) + k))
        = fun k : Nat => "rootfs.cpio.gz" from funext (fun k => rfl)]
    rw [List.map_const', List.length_range]
  · intro j hj1 hj2
    rw [hm, afterDom0_dom0lessRamdisk, List.getElem?_map, List.getElem?_range hj2,
      Option.map_some']
    rw [resolveRamdisk_eq]
    have hle : (olist a.ramdisk_args).length ≤ j := by
      rw [olist_length]; exact hj1
    rw [List.getElem?_eq_none hle]
    rfl

theorem C9_defaultResolution_witness :
    (main env0 TEMPLATE_CONFIG argsC9).dom0Rootfs = some "rootfs.cpio.gz"
    ∧ (main env0 TEMPLATE_CONFIG argsC9).domURootfs
        = List.replicate (olen argsC9.domU_args) "rootfs.cpio.gz"
    ∧ (main env0 TEMPLATE_CONFIG argsC9).dom0lessRamdisk[1]? = some "initrd.cpio" := by
  have h := C9_defaultResolution env0 TEMPLATE_CONFIG argsC9 3 rfl rfl
  exact ⟨h.1, h.2.1, h.2.2 1 (by decide) (by decide)⟩

/- Facts about a run that writes its configuration: the written text is
the final value of the global template and is strictly longer than the
initial value. -/
lemma main_configWritten_facts (env : Env) (tmpl : String) (a : Args) (s : String)
    (h : (main env tmpl a).configWritten = some s) :
    s = (main env tmpl a).tmpl ∧ tmpl.length < s.length := by
  obtain ⟨v, trD, hd, hc, hdir, hint, hm⟩ :=
    main_config_path env tmpl a (Or.inr (Or.inl (by rw [h]; rfl)))
  rw [hm] at h ⊢
  have hs := afterDom0_configWritten _ _ _ _ _ _ _ h
  refine ⟨hs, ?_⟩
  rw [hs]
  have hge := afterDom0_tmpl_ge env (tmpl ++ "DOM0_KERNEL=" ++ variantKernel v ++ "\n")
      a trD (((olist a.rootfs_args)[0]?).getD default_rootfs)
      (if truthy a.rootfs_args then 1 else 0)
  have h12 : ("DOM0_KERNEL=" : String).length = 12 := rfl
  have h1n : ("\n" : String).length = 1 := rfl
  have hlt : tmpl.length
      < (tmpl ++ "DOM0_KERNEL=" ++ variantKernel v ++ "\n").length := by
    simp [String.length_append, h12, h1n]
    omega
  omega

/-- Claim C5 is false as stated: running main twice in the same process
with identical inputs does not produce identical configuration text —
the second run's xen.cfg content differs, because the planner appends to
the module-level global TEMPLATE_CONFIG, which the first run mutated. -/
theorem C5_counterexample :
    (main envSd ((main env0 TEMPLATE_CONFIG argsC5).tmpl) argsC5).configWritten
      ≠ (main env0 TEMPLATE_CONFIG argsC5).configWritten := by
  decide

/-- Claim C5 (amended): the planner is deterministic as a function of
its inputs AND the current value of the module-level TEMPLATE_CONFIG
accumulator, but it is not side-effect-free: it mutates that global, so
a second run in the same process with identical dom0, domU, dom0less,
rootfs and ramdisk inputs writes strictly longer — hence different —
configuration text (the first run's entire output is its prefix). -/
theorem C5_globalAccumulator (env1 env2 : Env) (tmpl : String) (a : Args)
    (s1 s2 : String)
    (h1 : (main env1 tmpl a).configWritten = some s1)
    (h2 : (main env2 ((main env1 tmpl a).tmpl) a).configWritten = some s2) :
    s1.length < s2.length ∧ s1 ≠ s2 := by
  obtain ⟨e1, l1⟩ := main_configWritten_facts env1 tmpl a s1 h1
  obtain ⟨e2, l2⟩ := main_configWritten_facts env2 _ a s2 h2
  have hlt : s1.length < s2.length := by rw [e1]; exact l2
  refine ⟨hlt, fun hEq => ?_⟩
  rw [hEq] at hlt
  omega

theorem C5_globalAccumulator_witness :
    ((main env0 TEMPLATE_CONFIG argsC5).tmpl).length
      < ((main envSd ((main env0 TEMPLATE_CONFIG argsC5).tmpl) argsC5).tmpl).length
    ∧ (main env0 TEMPLATE_CONFIG argsC5).tmpl
      ≠ (main envSd ((main env0 TEMPLATE_CONFIG argsC5).tmpl) argsC5).tmpl :=
  C5_globalAccumulator env0 envSd TEMPLATE_CONFIG argsC5
    ((main env0 TEMPLATE_CONFIG argsC5).tmpl)
    ((main envSd ((main env0 TEMPLATE_CONFIG argsC5).tmpl) argsC5).tmpl)
    rfl rfl

lemma dirFix_five (s1 s2 s3 s4 s5 : String) :
    dirFixPartitions [Effect.copyFile s1, Effect.copyFile s2, Effect.copyFile s3,
      Effect.copyFile s4, Effect.copyFile s5] = [] := rfl

lemma inittabFix_five (s1 s2 s3 s4 s5 : String) :
    inittabFixPartitions [Effect.copyFile s1, Effect.copyFile s2, Effect.copyFile s3,
      Effect.copyFile s4, Effect.copyFile s5] = [] := rfl

lemma dirFix_mid (t : String) :
    dirFixPartitions [Effect.writeConfig t, Effect.runBootGen, Effect.runWhoami,
      Effect.runDiskImage, Effect.chownImage] = [] := rfl

lemma inittabFix_mid (t : String) :
    inittabFixPartitions [Effect.writeConfig t, Effect.runBootGen, Effect.runWhoami,
      Effect.runDiskImage, Effect.chownImage] = [] := rfl

lemma dirFix_xen (p : Nat) : dirFixPartitions (xen_fixes p) = [p] := rfl

lemma inittabFix_xen (p : Nat) : inittabFixPartitions (xen_fixes p) = [p] := rfl

lemma dirFix_debug (c : Prop) [Decidable c] (X : List Effect) :
    dirFixPartitions (if c then X ++ [Effect.rmAux] else X) = dirFixPartitions X := by
  split
  · rw [dirFix_append]
    simp [dirFixPartitions]
  · rfl

lemma inittabFix_debug (c : Prop) [Decidable c] (X : List Effect) :
    inittabFixPartitions (if c then X ++ [Effect.rmAux] else X)
      = inittabFixPartitions X := by
  split
  · rw [inittabFix_append]
    simp [inittabFixPartitions]
  · rfl

/- The staging phase of a completed run applies the Xen fixups to
partition 2 and then to partition i + 2 + 1 for each domU index i. -/
lemma stagePhase_fix (env : Env) (a : Args) (b : MainOut)
    (h : (stagePhase env a b).outcome = Outcome.completed) :
    dirFixPartitions (stagePhase env a b).trace
      = dirFixPartitions b.trace
        ++ 2 :: (List.range (olen a.domU_args)).map (fun i => i + 2 + 1)
    ∧ inittabFixPartitions (stagePhase env a b).trace
      = inittabFixPartitions b.trace
        ++ 2 :: (List.range (olen a.domU_args)).map (fun i => i + 2 + 1) := by
  have hmap : ((List.range (olen a.domU_args)).map (fun i => i + 2 + 1)).map xen_fixes
      = (List.range (olen a.domU_args)).map (fun i => xen_fixes (i + 2 + 1)) := by
    rw [List.map_map]
    apply List.map_congr_left
    intro i _
    rfl
  have hflatD : dirFixPartitions
      (((List.range (olen a.domU_args)).map (fun i => xen_fixes (i + 2 + 1))).flatten)
      = (List.range (olen a.domU_args)).map (fun i => i + 2 + 1) := by
    rw [← hmap, dirFix_flatten_fixes]
  have hflatI : inittabFixPartitions
      (((List.range (olen a.domU_args)).map (fun i => xen_fixes (i + 2 + 1))).flatten)
      = (List.range (olen a.domU_args)).map (fun i => i + 2 + 1) := by
    rw [← hmap, inittabFix_flatten_fixes]
  simp only [stagePhase] at h ⊢
  by_cases c1 : (copyOverrides env (olist a.ramdisk_args)).ok = false
  · simp [c1] at h
  · by_cases c2 : (copyOverrides env (olist a.rootfs_args)).ok = false
    · simp [c1, c2] at h
    · rw [if_neg c1, if_neg c2]
      constructor
      · simp only [dirFix_debug, dirFix_append, hflatD, dirFix_copyOverrides,
          dirFix_five, dirFix_mid, dirFix_xen, List.append_nil, List.nil_append]
        simp [List.append_assoc]
      · simp only [inittabFix_debug, inittabFix_append, hflatI,
          inittabFix_copyOverrides, inittabFix_five, inittabFix_mid, inittabFix_xen,
          List.append_nil, List.nil_append]
        simp [List.append_assoc]

/-- Claim C10: in every completed run with dom0 requested, the partition
fixups — creating /var/lib/xen and rewriting the getty line of
/etc/inittab — are applied to partition 2 and then, for each of the n
requested domU VMs, to partitions 3 through n + 2 in that order; the
fixup list does not depend on the dom0less requests, so dom0less VMs
never receive partition fixups. -/
theorem C10_partitionFixups (env : Env) (tmpl : String) (a : Args) (v : Variant)
    (h1 : a.dom0_arg = some v)
    (h2 : (main env tmpl a).outcome = Outcome.completed) :
    dirFixPartitions (main env tmpl a).trace
      = 2 :: (List.range (olen a.domU_args)).map (fun i => i + 3)
    ∧ inittabFixPartitions (main env tmpl a).trace
      = 2 :: (List.range (olen a.domU_args)).map (fun i => i + 3) := by
  obtain ⟨w, trD, hd, hc, hdir, hint, hm⟩ :=
    main_config_path env tmpl a (Or.inr (Or.inr ⟨h2, by rw [h1]; rfl⟩))
  rw [hm] at h2 ⊢
  simp only [afterDom0Rootfs] at h2 ⊢
  obtain ⟨hD, hI⟩ := stagePhase_fix env a _ h2
  rw [hD, hI]
  constructor
  · dsimp only
    simp only [dirFix_append, processDomUs_trace, processDom0less_trace,
      dirFix_copies, hdir, List.nil_append, List.append_nil]
  · dsimp only
    simp only [inittabFix_append, processDomUs_trace, processDom0less_trace,
      inittabFix_copies, hint, List.nil_append, List.append_nil]

theorem C10_partitionFixups_witness :
    dirFixPartitions (main env0 TEMPLATE_CONFIG argsC10).trace
      = 2 :: (List.range (olen argsC10.domU_args)).map (fun i => i + 3)
    ∧ inittabFixPartitions (main env0 TEMPLATE_CONFIG argsC10).trace
      = 2 :: (List.range (olen argsC10.domU_args)).map (fun i => i + 3) :=
  C10_partitionFixups env0 TEMPLATE_CONFIG argsC10 Variant.vanilla rfl rfl

end ColconKrs
